import Mathlib

/-!
Verification of the SCSI target driver `os/various/lib_scsi.c` (ChibiOS-Contrib).

The C code is shallowly embedded: machine integers are `Nat` with explicit
`% 2^32` (resp. `% 2^16`) where C unsigned overflow matters, byte buffers are
`List Nat` or `Nat → Nat` maps, and the two external collaborators (the block
device and the transport channel) are an explicit environment of response
functions.  Calls into the collaborators are recorded in an event trace so
that properties about which external calls happen can be stated.

The driver is compiled for a little-endian target (the `memcpy`-based field
extraction in `decode_data_request` and the struct-to-wire casts in the
response builders are byte-order sensitive); the embedding fixes the host to
little-endian, which is what every supported ChibiOS target uses.
-/

/-! ## Byte-composition helpers

`bytes4 b0 b1 b2 b3` is the 32-bit value with least-significant byte `b0`.
These lemmas let the C bit-twiddling (`&`, `|`, shifts with masks) be
evaluated bytewise.
-/

def bytes4 (b0 b1 b2 b3 : Nat) : Nat := b0 + 256 * (b1 + 256 * (b2 + 256 * b3))

theorem testBit_bytes4 (b0 b1 b2 b3 j : Nat) (h0 : b0 < 256) (h1 : b1 < 256) (h2 : b2 < 256) :
    (bytes4 b0 b1 b2 b3).testBit j =
      if j < 8 then b0.testBit j
      else if j < 16 then b1.testBit (j - 8)
      else if j < 24 then b2.testBit (j - 16)
      else b3.testBit (j - 24) := by
  have e : bytes4 b0 b1 b2 b3 = 2^8 * (b1 + 256 * (b2 + 256 * b3)) + b0 := by
    unfold bytes4; ring
  rw [e, Nat.testBit_mul_pow_two_add _ (by omega)]
  by_cases hj8 : j < 8
  · simp [hj8]
  · simp only [if_neg hj8]
    rw [show b1 + 256 * (b2 + 256 * b3) = 2^8 * (b2 + 256 * b3) + b1 by ring]
    rw [Nat.testBit_mul_pow_two_add _ (by omega)]
    by_cases hj16 : j < 16
    · have hc : j - 8 < 8 := by omega
      simp [hc, hj16]
    · have h8 : ¬ (j - 8 < 8) := by omega
      simp only [if_neg h8, if_neg hj16]
      rw [show b2 + 256 * b3 = 2^8 * b3 + b2 by ring]
      rw [Nat.testBit_mul_pow_two_add _ (by omega)]
      by_cases hj24 : j < 24
      · have e2 : j - 8 - 8 = j - 16 := by omega
        have hc : j - 16 < 8 := by omega
        rw [e2]
        simp [hc, hj24]
      · have h16 : ¬ (j - 8 - 8 < 8) := by omega
        have e2 : j - 8 - 8 - 8 = j - 24 := by omega
        simp [if_neg h16, if_neg hj24, e2]

theorem land_bytes4 (a0 a1 a2 a3 c0 c1 c2 c3 : Nat)
    (ha0 : a0 < 256) (ha1 : a1 < 256) (ha2 : a2 < 256)
    (hc0 : c0 < 256) (hc1 : c1 < 256) (hc2 : c2 < 256) :
    bytes4 a0 a1 a2 a3 &&& bytes4 c0 c1 c2 c3
      = bytes4 (a0 &&& c0) (a1 &&& c1) (a2 &&& c2) (a3 &&& c3) := by
  apply Nat.eq_of_testBit_eq
  intro j
  rw [Nat.testBit_land, testBit_bytes4 _ _ _ _ _ ha0 ha1 ha2,
      testBit_bytes4 _ _ _ _ _ hc0 hc1 hc2,
      testBit_bytes4 _ _ _ _ _ (Nat.lt_of_le_of_lt Nat.and_le_left ha0)
        (Nat.lt_of_le_of_lt Nat.and_le_left ha1) (Nat.lt_of_le_of_lt Nat.and_le_left ha2)]
  by_cases hj8 : j < 8 <;> by_cases hj16 : j < 16 <;> by_cases hj24 : j < 24 <;>
    simp [hj8, hj16, hj24, Nat.testBit_land]

theorem lor_bytes4 (a0 a1 a2 a3 c0 c1 c2 c3 : Nat)
    (ha0 : a0 < 256) (ha1 : a1 < 256) (ha2 : a2 < 256)
    (hc0 : c0 < 256) (hc1 : c1 < 256) (hc2 : c2 < 256)
    (hor0 : a0 ||| c0 < 256) (hor1 : a1 ||| c1 < 256) (hor2 : a2 ||| c2 < 256) :
    bytes4 a0 a1 a2 a3 ||| bytes4 c0 c1 c2 c3
      = bytes4 (a0 ||| c0) (a1 ||| c1) (a2 ||| c2) (a3 ||| c3) := by
  apply Nat.eq_of_testBit_eq
  intro j
  rw [Nat.testBit_lor, testBit_bytes4 _ _ _ _ _ ha0 ha1 ha2,
      testBit_bytes4 _ _ _ _ _ hc0 hc1 hc2,
      testBit_bytes4 _ _ _ _ _ hor0 hor1 hor2]
  by_cases hj8 : j < 8 <;> by_cases hj16 : j < 16 <;> by_cases hj24 : j < 24 <;>
    simp [hj8, hj16, hj24, Nat.testBit_lor]

theorem land_255 (x : Nat) : x &&& 255 = x % 256 := by
  apply Nat.eq_of_testBit_eq
  intro j
  rw [Nat.testBit_land, show (255:Nat) = 2^8 - 1 by norm_num, Nat.testBit_two_pow_sub_one,
      show (256:Nat) = 2^8 by norm_num, Nat.testBit_mod_two_pow]
  exact Bool.and_comm _ _

/-! ## Machine arithmetic

C unsigned 32-bit addition and subtraction, on `Nat`.
-/

def add32 (a b : Nat) : Nat := (a + b) % 4294967296

def sub32 (a b : Nat) : Nat := (a % 4294967296 + (4294967296 - b % 4294967296)) % 4294967296

/-! ## Byte swapping (lib_scsi.c lines 58-70)

`swap_uint32` embeds

  val =  ((val << 8)  and 0xFF00FF00 ) or ((val >> 8)  and 0x00FF00FF);
  return ((val << 16) and 0xFFFF0000)  or ((val >> 16) and 0x0000FFFF);

with the C `uint32_t` left shifts written as multiplication modulo 2^32.
-/

def swap_uint32 (val : Nat) : Nat :=
  let v := ((val * 256) % 4294967296 &&& 0xFF00FF00) ||| ((val / 256) &&& 0x00FF00FF)
  ((v * 65536) % 4294967296 &&& 0xFFFF0000) ||| ((v / 65536) &&& 0x0000FFFF)

/-- Embeds `((val >> 8) & 0xff) | ((val & 0xff) << 8)` truncated to `uint16_t`. -/
def swap_uint16 (val : Nat) : Nat :=
  ((val / 256) &&& 0xff) ||| (((val &&& 0xff) * 256) % 65536)

theorem swap_uint32_bytes (b0 b1 b2 b3 : Nat) (h0 : b0 < 256) (h1 : b1 < 256)
    (h2 : b2 < 256) (h3 : b3 < 256) :
    swap_uint32 (bytes4 b0 b1 b2 b3) = bytes4 b3 b2 b1 b0 := by
  have hb : ∀ x : Nat, x < 256 → x &&& 255 = x := by
    intro x hx; rw [land_255]; omega
  show (((bytes4 b0 b1 b2 b3 * 256) % 4294967296 &&& 0xFF00FF00) |||
        ((bytes4 b0 b1 b2 b3 / 256) &&& 0x00FF00FF)) * 65536 % 4294967296 &&& 0xFFFF0000 |||
       ((((bytes4 b0 b1 b2 b3 * 256) % 4294967296 &&& 0xFF00FF00) |||
        ((bytes4 b0 b1 b2 b3 / 256) &&& 0x00FF00FF)) / 65536 &&& 0x0000FFFF) = _
  have e1 : (bytes4 b0 b1 b2 b3 * 256) % 4294967296 = bytes4 0 b0 b1 b2 := by
    unfold bytes4; omega
  have e2 : bytes4 b0 b1 b2 b3 / 256 = bytes4 b1 b2 b3 0 := by
    unfold bytes4; omega
  have m1 : (0xFF00FF00 : Nat) = bytes4 0 255 0 255 := by unfold bytes4; norm_num
  have m2 : (0x00FF00FF : Nat) = bytes4 255 0 255 0 := by unfold bytes4; norm_num
  rw [e1, e2, m1, m2,
      land_bytes4 _ _ _ _ _ _ _ _ (by omega) h0 h1 (by omega) (by omega) (by omega),
      land_bytes4 _ _ _ _ _ _ _ _ h1 h2 h3 (by omega) (by omega) (by omega)]
  simp only [Nat.zero_and, Nat.and_zero, hb _ h0, hb _ h1, hb _ h2, hb _ h3]
  rw [lor_bytes4 0 b0 0 b2 b1 0 b3 0 (by omega) h0 (by omega) h1 (by omega) h3
        (by simpa using h1) (by simpa using h0) (by simpa using h3)]
  simp only [Nat.zero_or, Nat.or_zero]
  have e3 : (bytes4 b1 b0 b3 b2 * 65536) % 4294967296 = bytes4 0 0 b1 b0 := by
    unfold bytes4; omega
  have e4 : bytes4 b1 b0 b3 b2 / 65536 = bytes4 b3 b2 0 0 := by
    unfold bytes4; omega
  have m3 : (0xFFFF0000 : Nat) = bytes4 0 0 255 255 := by unfold bytes4; norm_num
  have m4 : (0x0000FFFF : Nat) = bytes4 255 255 0 0 := by unfold bytes4; norm_num
  rw [e3, e4, m3, m4,
      land_bytes4 _ _ _ _ _ _ _ _ (by omega) (by omega) h1 (by omega) (by omega) (by omega),
      land_bytes4 _ _ _ _ _ _ _ _ h3 h2 (by omega) (by omega) (by omega) (by omega)]
  simp only [Nat.zero_and, Nat.and_zero, hb _ h0, hb _ h1, hb _ h2, hb _ h3]
  rw [lor_bytes4 0 0 b1 b0 b3 b2 0 0 (by omega) (by omega) h1 h3 h2 (by omega)
        (by simpa using h3) (by simpa using h2) (by simpa using h1)]
  simp only [Nat.zero_or, Nat.or_zero]

theorem swap_uint16_bytes (b0 b1 : Nat) (h0 : b0 < 256) (h1 : b1 < 256) :
    swap_uint16 (bytes4 b0 b1 0 0) = bytes4 b1 b0 0 0 := by
  show (bytes4 b0 b1 0 0 / 256 &&& 255) ||| ((bytes4 b0 b1 0 0 &&& 255) * 256 % 65536) = _
  have e1 : bytes4 b0 b1 0 0 / 256 = b1 := by unfold bytes4; omega
  have e2 : bytes4 b0 b1 0 0 &&& 255 = b0 := by
    rw [land_255]; unfold bytes4; omega
  rw [e1, e2, land_255, Nat.mod_eq_of_lt h1]
  have e3 : b0 * 256 % 65536 = bytes4 0 b0 0 0 := by unfold bytes4; omega
  have e4 : b1 = bytes4 b1 0 0 0 := by unfold bytes4; omega
  rw [e3]
  conv_lhs => rw [e4]
  rw [lor_bytes4 b1 0 0 0 0 b0 0 0 h1 (by omega) (by omega) (by omega) h0 (by omega)
        (by simpa using h1) (by simpa using h0) (by simp)]
  simp only [Nat.zero_or, Nat.or_zero]

/-! ## Data model (lib_scsi.c lines 36-39, lib_scsi.h structures)

The driver's own request type is taken from the source.  The structure and
constant definitions that live in `lib_scsi.h` (which is outside the sources
at hand) are modelled from the spec where needed; each such definition is
marked below.
-/

structure data_request_t where
  first_lba : Nat
  blk_cnt : Nat
deriving DecidableEq, Repr

/-- Modelled from the spec: block-device geometry as reported by the external
block device (`getInfo() -> {blockSize, blockCount, writeProtected}`); the
write-protect flag is kept separately in the environment. -/
structure BlockDeviceInfo where
  blk_size : Nat
  blk_num : Nat
deriving DecidableEq, Repr

/-- Modelled from the spec: the engine configuration's preconfigured
identification payload (`scsi_inquiry_response_t` lives in the header). -/
structure SCSITargetConfig where
  inquiry_response : List Nat
deriving DecidableEq, Repr

/-- The engine instance state: sense structure, mode-sense scratch structure,
residue counter, and the working transfer buffer (`config->blkbuf`). -/
structure SCSITarget where
  config : SCSITargetConfig
  sense : List Nat
  mode_sense : List Nat
  residue : Nat
  buf : List Nat
deriving DecidableEq, Repr

/-- The external collaborators: device geometry and write-protect state,
the transport's transmit result (bytes actually sent for a given payload and
requested length), the transport's receive result, and the data produced by
block reads and transport receives. -/
structure Env where
  bdi : BlockDeviceInfo
  write_protected : Bool
  transmit_result : List Nat → Nat → Nat
  receive_result : Nat → Nat
  block_data : Nat → List Nat
  rx_data : Nat → List Nat

/-- Trace of calls made to the external collaborators during one dispatch. -/
inductive Event where
  | getInfo : Event
  | isWriteProtected : Event
  | blkRead (lba : Nat) : Event
  | blkWrite (lba : Nat) : Event
  | transmit (data : List Nat) (len : Nat) : Event
  | receive (len : Nat) : Event
deriving DecidableEq, Repr

/-! ## Constants from lib_scsi.h

Modelled from the spec: the header defining the command opcodes, the sense
key/code/qualifier enumerations and the response-structure sizes is not among
the sources; the standard SCSI values it uses are reproduced here.  No claim
depends on the particular numeric values, only on distinctness of the success
and error sense triples.
-/

def SCSI_CMD_TEST_UNIT_READY : Nat := 0x00
def SCSI_CMD_REQUEST_SENSE : Nat := 0x03
def SCSI_CMD_INQUIRY : Nat := 0x12
def SCSI_CMD_MODE_SENSE_6 : Nat := 0x1A
def SCSI_CMD_PREVENT_ALLOW_MEDIUM_REMOVAL : Nat := 0x1E
def SCSI_CMD_READ_CAPACITY_10 : Nat := 0x25
def SCSI_CMD_READ_10 : Nat := 0x28
def SCSI_CMD_WRITE_10 : Nat := 0x2A

def SCSI_SENSE_KEY_GOOD : Nat := 0x00
def SCSI_SENSE_KEY_ILLEGAL_REQUEST : Nat := 0x05
def SCSI_ASENSE_NO_ADDITIONAL_INFORMATION : Nat := 0x00
def SCSI_ASENSE_INVALID_COMMAND : Nat := 0x20
def SCSI_ASENSE_LBA_OUT_OF_RANGE : Nat := 0x21
def SCSI_ASENSE_INVALID_FIELD_IN_CDB : Nat := 0x24
def SCSI_ASENSEQ_NO_QUALIFIER : Nat := 0x00

/-- Modelled from the spec: the sense response structure is a fixed 18-byte
array (`scsi_sense_response_t`). -/
def scsi_sense_response_size : Nat := 18

/-- Modelled from the spec: size of the fixed identification payload
structure (`scsi_inquiry_response_t`). -/
def scsi_inquiry_response_size : Nat := 36

/-- Modelled from the spec: size of the mode-parameters response structure
(`scsi_mode_sense6_response_t`). -/
def scsi_mode_sense6_response_size : Nat := 4

/-- Modelled from the spec: size of the capacity response structure
(`scsi_read_capacity10_response_t`, two 4-byte fields). -/
def scsi_read_capacity10_response_size : Nat := 8

/-- The driver returns ChibiOS HAL status values: `SCSI_SUCCESS` is
`HAL_SUCCESS` (false) and `SCSI_FAILED` is `HAL_FAILED` (true). -/
def SCSI_SUCCESS : Bool := false

def SCSI_FAILED : Bool := true

/-! ## Sense bookkeeping (lib_scsi.c lines 102-126) -/

/-- The 18-byte sense structure produced by `set_sense`: zeroed, then
byte 0 = 0x70, byte 2 = key, byte 7 = 8, byte 12 = code, byte 13 = qual. -/
def sense_bytes (key code qual : Nat) : List Nat :=
  [0x70, 0, key, 0, 0, 0, 0, 8, 0, 0, 0, 0, code, qual, 0, 0, 0, 0]

def set_sense (scsip : SCSITarget) (key code qual : Nat) : SCSITarget :=
  { scsip with sense := sense_bytes key code qual }

def set_sense_ok (scsip : SCSITarget) : SCSITarget :=
  set_sense scsip SCSI_SENSE_KEY_GOOD SCSI_ASENSE_NO_ADDITIONAL_INFORMATION
    SCSI_ASENSEQ_NO_QUALIFIER

/-- The canonical success sense structure. -/
def sense_ok_bytes : List Nat :=
  sense_bytes SCSI_SENSE_KEY_GOOD SCSI_ASENSE_NO_ADDITIONAL_INFORMATION
    SCSI_ASENSEQ_NO_QUALIFIER

/-! ## Command decoding (lib_scsi.c lines 77-90)

`memcpy` of 4 (resp. 2) bytes starting at `cmd[2]` (resp. `cmd[7]`) into a
`uint32_t` (resp. `uint16_t`) on the little-endian host assembles the bytes
least-significant first; the result is then byte-swapped.
-/

def decode_data_request (cmd : Nat → Nat) : data_request_t :=
  { first_lba := swap_uint32 (bytes4 (cmd 2) (cmd 3) (cmd 4) (cmd 5)),
    blk_cnt := swap_uint16 (bytes4 (cmd 7) (cmd 8) 0 0) }

/-- Big-endian wire encoding of a 32-bit LBA and a 16-bit block count at the
fixed offsets of the 10-byte read/write command form (spec section 6); all
other bytes zero.  This is the spec-side encoder used to state the
decode round-trip property. -/
def encode_rw10 (lba blk : Nat) : Nat → Nat := fun i =>
  if i = 2 then lba / 16777216 % 256
  else if i = 3 then lba / 65536 % 256
  else if i = 4 then lba / 256 % 256
  else if i = 5 then lba % 256
  else if i = 7 then blk / 256 % 256
  else if i = 8 then blk % 256
  else 0

/-- Little-endian in-memory byte image of a `uint32_t` value. -/
def le_bytes32 (v : Nat) : List Nat :=
  [v % 256, v / 256 % 256, v / 65536 % 256, v / 16777216 % 256]

/-- Big-endian wire image of a 32-bit value (spec-side, for statements). -/
def be_bytes32 (v : Nat) : List Nat :=
  [v / 16777216 % 256, v / 65536 % 256, v / 256 % 256, v % 256]

/-! ## Transport wrapper and handlers (lib_scsi.c lines 139-347)

Each handler returns `(status, new engine state, event trace)`.
-/

def transmit_data (env : Env) (scsip : SCSITarget) (data : List Nat) (len : Nat) :
    Bool × SCSITarget × List Event :=
  let sent := env.transmit_result data len
  let residue := sub32 len sent
  if residue > 0 then
    (SCSI_FAILED, { scsip with residue := residue }, [Event.transmit data len])
  else
    (SCSI_SUCCESS, scsip, [Event.transmit data len])

def cmd_unhandled (scsip : SCSITarget) (_cmd : Nat → Nat) :
    Bool × SCSITarget × List Event :=
  (SCSI_FAILED,
   set_sense scsip SCSI_SENSE_KEY_ILLEGAL_REQUEST SCSI_ASENSE_INVALID_COMMAND
     SCSI_ASENSEQ_NO_QUALIFIER,
   [])

def cmd_ignored (scsip : SCSITarget) (_cmd : Nat → Nat) :
    Bool × SCSITarget × List Event :=
  (SCSI_SUCCESS, set_sense_ok scsip, [])

def inquiry (env : Env) (scsip : SCSITarget) (cmd : Nat → Nat) :
    Bool × SCSITarget × List Event :=
  if cmd 1 &&& 0b11 ≠ 0 ∨ cmd 2 ≠ 0 then
    (SCSI_FAILED,
     set_sense scsip SCSI_SENSE_KEY_ILLEGAL_REQUEST SCSI_ASENSE_INVALID_FIELD_IN_CDB
       SCSI_ASENSEQ_NO_QUALIFIER,
     [])
  else
    transmit_data env scsip scsip.config.inquiry_response scsi_inquiry_response_size

/-- The C code copies 3 bytes from `cmd[1]` into a `uint32_t` and requires the
copied field to be zero (its fourth byte is uninitialized in the C code; the
embedding checks the three copied bytes) and `cmd[4]` to equal the sense
structure size. -/
def request_sense (env : Env) (scsip : SCSITarget) (cmd : Nat → Nat) :
    Bool × SCSITarget × List Event :=
  if (cmd 1 ≠ 0 ∨ cmd 2 ≠ 0 ∨ cmd 3 ≠ 0) ∨ cmd 4 ≠ scsi_sense_response_size then
    (SCSI_FAILED,
     set_sense scsip SCSI_SENSE_KEY_ILLEGAL_REQUEST SCSI_ASENSE_INVALID_FIELD_IN_CDB
       SCSI_ASENSEQ_NO_QUALIFIER,
     [])
  else
    transmit_data env scsip scsip.sense scsi_sense_response_size

def mode_sense6 (env : Env) (scsip : SCSITarget) (_cmd : Nat → Nat) :
    Bool × SCSITarget × List Event :=
  let ms := [scsi_mode_sense6_response_size - 1, 0,
             if env.write_protected then 0x80 else 0, 0]
  let s := { scsip with mode_sense := ms }
  let td := transmit_data env s s.mode_sense scsi_mode_sense6_response_size
  (td.1, td.2.1, Event.isWriteProtected :: td.2.2)

def read_capacity10 (env : Env) (scsip : SCSITarget) (_cmd : Nat → Nat) :
    Bool × SCSITarget × List Event :=
  let last_block_addr := swap_uint32 (sub32 env.bdi.blk_num 1)
  let block_size := swap_uint32 env.bdi.blk_size
  let payload := le_bytes32 last_block_addr ++ le_bytes32 block_size
  let td := transmit_data env scsip payload scsi_read_capacity10_response_size
  (td.1, td.2.1, Event.getInfo :: td.2.2)

/-- Range validation (lib_scsi.c lines 292-306): queries geometry and rejects
the request when `first_lba + blk_cnt` (C `uint32_t` addition) exceeds the
device block count, setting the LBA-out-of-range sense. -/
def data_overflow (env : Env) (scsip : SCSITarget) (req : data_request_t) :
    Bool × SCSITarget × List Event :=
  if add32 req.first_lba req.blk_cnt > env.bdi.blk_num then
    (true,
     set_sense scsip SCSI_SENSE_KEY_ILLEGAL_REQUEST SCSI_ASENSE_LBA_OUT_OF_RANGE
       SCSI_ASENSEQ_NO_QUALIFIER,
     [Event.getInfo])
  else
    (false, scsip, [Event.getInfo])

/-- One iteration of the transfer loop body: for a read, `blkRead` one block
at `first_lba + i` into the buffer then transmit it (block-size bytes); for a
write, receive block-size bytes then `blkWrite` them.  The results of the
device and transport calls are ignored by the C code. -/
def rw_iter (env : Env) (cmd0 first_lba bs : Nat) (scsip : SCSITarget) (i : Nat) :
    SCSITarget × List Event :=
  if cmd0 = SCSI_CMD_READ_10 then
    let s := { scsip with buf := env.block_data (add32 first_lba i) }
    (s, [Event.blkRead (add32 first_lba i), Event.transmit s.buf bs])
  else
    let s := { scsip with buf := env.rx_data i }
    (s, [Event.receive bs, Event.blkWrite (add32 first_lba i)])

/-- The transfer loop `for (i = 0; i < blk_cnt; i++)`, iterations in order. -/
def rw_loop (env : Env) (cmd0 first_lba bs : Nat) (scsip : SCSITarget) :
    Nat → SCSITarget × List Event
  | 0 => (scsip, [])
  | n + 1 =>
      let p := rw_loop env cmd0 first_lba bs scsip n
      let q := rw_iter env cmd0 first_lba bs p.1 n
      (q.1, p.2 ++ q.2)

/-- Read/write handler (lib_scsi.c lines 318-347): decode, validate, then run
the transfer loop; always returns `SCSI_SUCCESS` once validation passed. -/
def data_read_write10 (env : Env) (scsip : SCSITarget) (cmd : Nat → Nat) :
    Bool × SCSITarget × List Event :=
  let req := decode_data_request cmd
  let dov := data_overflow env scsip req
  if dov.1 then
    (SCSI_FAILED, dov.2.1, dov.2.2)
  else
    let p := rw_loop env (cmd 0) req.first_lba env.bdi.blk_size dov.2.1 req.blk_cnt
    (SCSI_SUCCESS, p.1, dov.2.2 ++ [Event.getInfo] ++ p.2)

/-- Dispatcher (lib_scsi.c lines 366-408): resets the sense state to the
success condition, then routes on the opcode byte. -/
def scsiExecCmd (env : Env) (scsip : SCSITarget) (cmd : Nat → Nat) :
    Bool × SCSITarget × List Event :=
  let s := set_sense_ok scsip
  if cmd 0 = SCSI_CMD_INQUIRY then inquiry env s cmd
  else if cmd 0 = SCSI_CMD_REQUEST_SENSE then request_sense env s cmd
  else if cmd 0 = SCSI_CMD_READ_CAPACITY_10 then read_capacity10 env s cmd
  else if cmd 0 = SCSI_CMD_READ_10 then data_read_write10 env s cmd
  else if cmd 0 = SCSI_CMD_WRITE_10 then data_read_write10 env s cmd
  else if cmd 0 = SCSI_CMD_TEST_UNIT_READY then cmd_ignored s cmd
  else if cmd 0 = SCSI_CMD_PREVENT_ALLOW_MEDIUM_REMOVAL then cmd_ignored s cmd
  else if cmd 0 = SCSI_CMD_MODE_SENSE_6 then mode_sense6 env s cmd
  else cmd_unhandled s cmd

/-- Residue accessor (lib_scsi.c lines 461-464). -/
def scsiResidue (scsip : SCSITarget) : Nat := scsip.residue

/-! ## Concrete test fixtures -/

/-- An environment with the given block size, block count, and a transport
whose transmit primitive always reports the given count of bytes sent. -/
def mkEnv (bs bn tx : Nat) : Env :=
  { bdi := { blk_size := bs, blk_num := bn }, write_protected := false,
    transmit_result := fun _ _ => tx, receive_result := fun _ => 0,
    block_data := fun _ => [], rx_data := fun _ => [] }

/-- An initial engine state with a fixed identification payload. -/
def target0 : SCSITarget :=
  { config := { inquiry_response := List.replicate 36 7 },
    sense := List.replicate 18 0, mode_sense := List.replicate 4 0,
    residue := 0, buf := [] }

/-- A command buffer with the given opcode and all other bytes zero. -/
def cmdOnly (op : Nat) : Nat → Nat := fun i => if i = 0 then op else 0

/-- A read command for 2 blocks starting at LBA 0. -/
def cmdRead2 : Nat → Nat := fun i =>
  if i = 0 then SCSI_CMD_READ_10 else if i = 8 then 2 else 0

/-- A well-formed report-sense command. -/
def cmdReqSense : Nat → Nat := fun i =>
  if i = 0 then SCSI_CMD_REQUEST_SENSE
  else if i = 4 then scsi_sense_response_size else 0

/-- Classifier for block-device read/write calls in the event trace. -/
def is_block_io : Event → Bool
  | Event.blkRead _ => true
  | Event.blkWrite _ => true
  | _ => false

/-- Number of per-block device transfers in an event trace. -/
def block_io_count (evs : List Event) : Nat := (evs.filter is_block_io).length

/-! ## Claims -/

/-- C1: the claim states that `data_overflow` fails exactly when the
mathematical sum `first_lba + block_count` exceeds the device block count,
including when the sum exceeds the 32-bit range.  The code computes the sum
with C `uint32_t` wraparound, so at `first_lba = 0xFFFFFFFF`, `blk_cnt = 2`
on a 1000-block device the sum wraps to 1 and the out-of-range request is
accepted: the check returns no overflow and leaves the engine state (hence
the sense) unchanged, although the mathematical sum exceeds the block count.
This evaluates the code at that failing input. -/
theorem C1_data_overflow_wraparound_bug :
    4294967295 + 2 > (mkEnv 512 1000 0).bdi.blk_num ∧
    (data_overflow (mkEnv 512 1000 0) target0
        { first_lba := 4294967295, blk_cnt := 2 }).1 = false ∧
    (data_overflow (mkEnv 512 1000 0) target0
        { first_lba := 4294967295, blk_cnt := 2 }).2.1 = target0 :=
  ⟨by norm_num [mkEnv], rfl, rfl⟩

/-- C3: encoding a 32-bit LBA and 16-bit block count big-endian at the fixed
command-buffer offsets and decoding with `decode_data_request` returns the
original values, and `swap_uint32` / `swap_uint16` are involutions on their
ranges. -/
theorem C3_decode_encode_roundtrip (lba blk v w : Nat)
    (hl : lba < 4294967296) (hb : blk < 65536)
    (hv : v < 4294967296) (hw : w < 65536) :
    decode_data_request (encode_rw10 lba blk) = { first_lba := lba, blk_cnt := blk } ∧
    swap_uint32 (swap_uint32 v) = v ∧
    swap_uint16 (swap_uint16 w) = w := by
  refine ⟨?_, ?_, ?_⟩
  · simp only [decode_data_request, encode_rw10]
    norm_num
    rw [swap_uint32_bytes _ _ _ _ (by omega) (by omega) (by omega) (by omega),
        swap_uint16_bytes _ _ (by omega) (by omega)]
    constructor
    · unfold bytes4; omega
    · unfold bytes4; omega
  · have hd : v = bytes4 (v % 256) (v / 256 % 256) (v / 65536 % 256) (v / 16777216) := by
      unfold bytes4; omega
    rw [hd, swap_uint32_bytes _ _ _ _ (by omega) (by omega) (by omega) (by omega),
        swap_uint32_bytes _ _ _ _ (by omega) (by omega) (by omega) (by omega), ← hd]
  · have hd : w = bytes4 (w % 256) (w / 256) 0 0 := by
      unfold bytes4; omega
    rw [hd, swap_uint16_bytes _ _ (by omega) (by omega),
        swap_uint16_bytes _ _ (by omega) (by omega), ← hd]

theorem C3_decode_encode_roundtrip_witness :
    decode_data_request (encode_rw10 3735928559 4660)
        = { first_lba := 3735928559, blk_cnt := 4660 } ∧
    swap_uint32 (swap_uint32 305419896) = 305419896 ∧
    swap_uint16 (swap_uint16 43981) = 43981 :=
  C3_decode_encode_roundtrip 3735928559 4660 305419896 43981
    (by norm_num) (by norm_num) (by norm_num) (by norm_num)

/-- C4: the transmit wrapper computes the residue as the requested length
minus the bytes the transport actually sent; a shortfall is stored in the
engine's residue field with a failure status, while a full transmit leaves
the engine state (residue included) unchanged and reports success. -/
theorem C4_transmit_data_residue (env : Env) (scsip : SCSITarget) (data : List Nat)
    (len sent : Nat) (hsent : env.transmit_result data len = sent)
    (hle : sent ≤ len) (hlen : len < 4294967296) :
    (sent < len →
      (transmit_data env scsip data len).1 = SCSI_FAILED ∧
      (transmit_data env scsip data len).2.1 = { scsip with residue := len - sent }) ∧
    (sent = len →
      (transmit_data env scsip data len).1 = SCSI_SUCCESS ∧
      (transmit_data env scsip data len).2.1 = scsip) := by
  have hres : sub32 len sent = len - sent := by unfold sub32; omega
  simp only [transmit_data, hsent, hres]
  constructor
  · intro hlt
    have hpos : len - sent > 0 := by omega
    simp [hpos]
  · intro heq
    subst heq
    simp

theorem C4_transmit_data_residue_witness :
    ((3:Nat) < 5 →
      (transmit_data (mkEnv 512 1000 3) target0 [1, 2] 5).1 = SCSI_FAILED ∧
      (transmit_data (mkEnv 512 1000 3) target0 [1, 2] 5).2.1 =
        { target0 with residue := 5 - 3 }) ∧
    ((3:Nat) = 5 →
      (transmit_data (mkEnv 512 1000 3) target0 [1, 2] 5).1 = SCSI_SUCCESS ∧
      (transmit_data (mkEnv 512 1000 3) target0 [1, 2] 5).2.1 = target0) :=
  C4_transmit_data_residue (mkEnv 512 1000 3) target0 [1, 2] 5 3 rfl
    (by norm_num) (by norm_num)

theorem illegal_sense_ne_ok (code qual : Nat) :
    sense_bytes SCSI_SENSE_KEY_ILLEGAL_REQUEST code qual ≠ sense_ok_bytes := by
  intro hEq
  simp [sense_bytes, sense_ok_bytes, SCSI_SENSE_KEY_ILLEGAL_REQUEST, SCSI_SENSE_KEY_GOOD,
    SCSI_ASENSE_NO_ADDITIONAL_INFORMATION, SCSI_ASENSEQ_NO_QUALIFIER] at hEq

theorem transmit_data_fail_residue (env : Env) (s : SCSITarget) (d : List Nat) (l : Nat)
    (h : (transmit_data env s d l).1 = SCSI_FAILED) :
    (transmit_data env s d l).2.1.residue > 0 := by
  simp only [transmit_data] at h ⊢
  by_cases hc : sub32 l (env.transmit_result d l) > 0
  · simp [hc]
  · simp [hc, SCSI_SUCCESS, SCSI_FAILED] at h

theorem data_overflow_true_sense (env : Env) (s : SCSITarget) (req : data_request_t)
    (h : (data_overflow env s req).1 = true) :
    (data_overflow env s req).2.1.sense =
      sense_bytes SCSI_SENSE_KEY_ILLEGAL_REQUEST SCSI_ASENSE_LBA_OUT_OF_RANGE
        SCSI_ASENSEQ_NO_QUALIFIER := by
  simp only [data_overflow] at h ⊢
  split_ifs at h ⊢ with hc
  rfl

/-- C5: dispatch of any command whose opcode byte is none of the eight
recognized opcodes fails and sets the illegal-request / invalid-command
sense, regardless of the prior sense state. -/
theorem C5_unknown_opcode (env : Env) (scsip : SCSITarget) (cmd : Nat → Nat)
    (h1 : cmd 0 ≠ SCSI_CMD_INQUIRY) (h2 : cmd 0 ≠ SCSI_CMD_REQUEST_SENSE)
    (h3 : cmd 0 ≠ SCSI_CMD_READ_CAPACITY_10) (h4 : cmd 0 ≠ SCSI_CMD_READ_10)
    (h5 : cmd 0 ≠ SCSI_CMD_WRITE_10) (h6 : cmd 0 ≠ SCSI_CMD_TEST_UNIT_READY)
    (h7 : cmd 0 ≠ SCSI_CMD_PREVENT_ALLOW_MEDIUM_REMOVAL)
    (h8 : cmd 0 ≠ SCSI_CMD_MODE_SENSE_6) :
    (scsiExecCmd env scsip cmd).1 = SCSI_FAILED ∧
    (scsiExecCmd env scsip cmd).2.1.sense =
      sense_bytes SCSI_SENSE_KEY_ILLEGAL_REQUEST SCSI_ASENSE_INVALID_COMMAND
        SCSI_ASENSEQ_NO_QUALIFIER := by
  simp only [scsiExecCmd, if_neg h1, if_neg h2, if_neg h3, if_neg h4, if_neg h5,
    if_neg h6, if_neg h7, if_neg h8]
  exact ⟨rfl, rfl⟩

theorem C5_unknown_opcode_witness :
    (scsiExecCmd (mkEnv 512 1000 8) target0 (cmdOnly 0x42)).1 = SCSI_FAILED ∧
    (scsiExecCmd (mkEnv 512 1000 8) target0 (cmdOnly 0x42)).2.1.sense =
      sense_bytes SCSI_SENSE_KEY_ILLEGAL_REQUEST SCSI_ASENSE_INVALID_COMMAND
        SCSI_ASENSEQ_NO_QUALIFIER :=
  C5_unknown_opcode (mkEnv 512 1000 8) target0 (cmdOnly 0x42) (by decide) (by decide)
    (by decide) (by decide) (by decide) (by decide) (by decide) (by decide)

/-- C2 counterexample: a valid identify command over a transport that sends
0 bytes makes scsiExecCmd return failure while the sense state still holds
the canonical success triple, refuting the claim that every failing dispatch
leaves a non-success sense condition. -/
theorem C2_counterexample :
    (scsiExecCmd (mkEnv 512 1000 0) target0 (cmdOnly SCSI_CMD_INQUIRY)).1 = SCSI_FAILED ∧
    (scsiExecCmd (mkEnv 512 1000 0) target0 (cmdOnly SCSI_CMD_INQUIRY)).2.1.sense
      = sense_ok_bytes :=
  ⟨rfl, rfl⟩

/-- C2 amended: whenever scsiExecCmd returns failure, either a non-success
sense condition has been set by that dispatch, or the failure is a transport
short-transfer, in which case the engine's residue field is positive while
the sense stays at the success condition. -/
theorem C2_failure_sense_or_residue (env : Env) (scsip : SCSITarget) (cmd : Nat → Nat)
    (h : (scsiExecCmd env scsip cmd).1 = SCSI_FAILED) :
    (scsiExecCmd env scsip cmd).2.1.sense ≠ sense_ok_bytes ∨
    (scsiExecCmd env scsip cmd).2.1.residue > 0 := by
  simp only [scsiExecCmd] at h ⊢
  split_ifs at h ⊢ with h1 h2 h3 h4 h5 h6 h7 h8
  · -- inquiry
    simp only [inquiry] at h ⊢
    split_ifs at h ⊢ with hv
    · exact Or.inl (illegal_sense_ne_ok _ _)
    · exact Or.inr (transmit_data_fail_residue _ _ _ _ h)
  · -- request sense
    simp only [request_sense] at h ⊢
    split_ifs at h ⊢ with hv
    · exact Or.inl (illegal_sense_ne_ok _ _)
    · exact Or.inr (transmit_data_fail_residue _ _ _ _ h)
  · -- read capacity
    exact Or.inr (transmit_data_fail_residue _ _ _ _ h)
  · -- read 10
    simp only [data_read_write10] at h ⊢
    split_ifs at h ⊢ with hov
    · refine Or.inl ?_
      rw [data_overflow_true_sense _ _ _ hov]
      exact illegal_sense_ne_ok _ _
    · simp [SCSI_SUCCESS, SCSI_FAILED] at h
  · -- write 10
    simp only [data_read_write10] at h ⊢
    split_ifs at h ⊢ with hov
    · refine Or.inl ?_
      rw [data_overflow_true_sense _ _ _ hov]
      exact illegal_sense_ne_ok _ _
    · simp [SCSI_SUCCESS, SCSI_FAILED] at h
  · -- test unit ready
    simp [cmd_ignored, SCSI_SUCCESS, SCSI_FAILED] at h
  · -- prevent/allow medium removal
    simp [cmd_ignored, SCSI_SUCCESS, SCSI_FAILED] at h
  · -- mode sense
    exact Or.inr (transmit_data_fail_residue _ _ _ _ h)
  · -- unhandled
    exact Or.inl (illegal_sense_ne_ok _ _)

theorem C2_failure_sense_or_residue_witness :
    (scsiExecCmd (mkEnv 512 1000 8) target0 (cmdOnly 0x55)).2.1.sense ≠ sense_ok_bytes ∨
    (scsiExecCmd (mkEnv 512 1000 8) target0 (cmdOnly 0x55)).2.1.residue > 0 :=
  C2_failure_sense_or_residue (mkEnv 512 1000 8) target0 (cmdOnly 0x55) rfl

theorem exec_inquiry (env : Env) (scsip : SCSITarget) (cmd : Nat → Nat)
    (h : cmd 0 = SCSI_CMD_INQUIRY) :
    scsiExecCmd env scsip cmd = inquiry env (set_sense_ok scsip) cmd := by
  simp only [scsiExecCmd, if_pos h]

theorem exec_request_sense (env : Env) (scsip : SCSITarget) (cmd : Nat → Nat)
    (h : cmd 0 = SCSI_CMD_REQUEST_SENSE) :
    scsiExecCmd env scsip cmd = request_sense env (set_sense_ok scsip) cmd := by
  have n1 : cmd 0 ≠ SCSI_CMD_INQUIRY := by rw [h]; decide
  simp only [scsiExecCmd, if_neg n1, if_pos h]

theorem exec_read_capacity (env : Env) (scsip : SCSITarget) (cmd : Nat → Nat)
    (h : cmd 0 = SCSI_CMD_READ_CAPACITY_10) :
    scsiExecCmd env scsip cmd = read_capacity10 env (set_sense_ok scsip) cmd := by
  have n1 : cmd 0 ≠ SCSI_CMD_INQUIRY := by rw [h]; decide
  have n2 : cmd 0 ≠ SCSI_CMD_REQUEST_SENSE := by rw [h]; decide
  simp only [scsiExecCmd, if_neg n1, if_neg n2, if_pos h]

theorem exec_read10 (env : Env) (scsip : SCSITarget) (cmd : Nat → Nat)
    (h : cmd 0 = SCSI_CMD_READ_10) :
    scsiExecCmd env scsip cmd = data_read_write10 env (set_sense_ok scsip) cmd := by
  have n1 : cmd 0 ≠ SCSI_CMD_INQUIRY := by rw [h]; decide
  have n2 : cmd 0 ≠ SCSI_CMD_REQUEST_SENSE := by rw [h]; decide
  have n3 : cmd 0 ≠ SCSI_CMD_READ_CAPACITY_10 := by rw [h]; decide
  simp only [scsiExecCmd, if_neg n1, if_neg n2, if_neg n3, if_pos h]

theorem exec_write10 (env : Env) (scsip : SCSITarget) (cmd : Nat → Nat)
    (h : cmd 0 = SCSI_CMD_WRITE_10) :
    scsiExecCmd env scsip cmd = data_read_write10 env (set_sense_ok scsip) cmd := by
  have n1 : cmd 0 ≠ SCSI_CMD_INQUIRY := by rw [h]; decide
  have n2 : cmd 0 ≠ SCSI_CMD_REQUEST_SENSE := by rw [h]; decide
  have n3 : cmd 0 ≠ SCSI_CMD_READ_CAPACITY_10 := by rw [h]; decide
  have n4 : cmd 0 ≠ SCSI_CMD_READ_10 := by rw [h]; decide
  simp only [scsiExecCmd, if_neg n1, if_neg n2, if_neg n3, if_neg n4, if_pos h]

/-- C8: an identify command with a non-zero low reserved bit in byte 1 or a
non-zero byte 2 fails with the illegal-request / invalid-field sense; with
both zero (and a transport that accepts the full payload) it succeeds and
hands the transport exactly the preconfigured identification payload. -/
theorem C8_inquiry_validation (env : Env) (scsip : SCSITarget) (cmd : Nat → Nat)
    (h0 : cmd 0 = SCSI_CMD_INQUIRY)
    (hfull : env.transmit_result scsip.config.inquiry_response scsi_inquiry_response_size
        = scsi_inquiry_response_size) :
    ((cmd 1 &&& 3 ≠ 0 ∨ cmd 2 ≠ 0) →
      (scsiExecCmd env scsip cmd).1 = SCSI_FAILED ∧
      (scsiExecCmd env scsip cmd).2.1.sense =
        sense_bytes SCSI_SENSE_KEY_ILLEGAL_REQUEST SCSI_ASENSE_INVALID_FIELD_IN_CDB
          SCSI_ASENSEQ_NO_QUALIFIER) ∧
    (cmd 1 &&& 3 = 0 → cmd 2 = 0 →
      (scsiExecCmd env scsip cmd).1 = SCSI_SUCCESS ∧
      (scsiExecCmd env scsip cmd).2.2 =
        [Event.transmit scsip.config.inquiry_response scsi_inquiry_response_size]) := by
  rw [exec_inquiry env scsip cmd h0]
  constructor
  · intro hv
    have he : inquiry env (set_sense_ok scsip) cmd =
        (SCSI_FAILED,
         set_sense (set_sense_ok scsip) SCSI_SENSE_KEY_ILLEGAL_REQUEST
           SCSI_ASENSE_INVALID_FIELD_IN_CDB SCSI_ASENSEQ_NO_QUALIFIER, []) := by
      simp only [inquiry, if_pos hv]
    rw [he]
    exact ⟨rfl, rfl⟩
  · intro hv1 hv2
    have hv : ¬ (cmd 1 &&& 3 ≠ 0 ∨ cmd 2 ≠ 0) := by
      push_neg
      exact ⟨hv1, hv2⟩
    have hsub : sub32 scsi_inquiry_response_size
        (env.transmit_result ((set_sense_ok scsip).config.inquiry_response)
          scsi_inquiry_response_size) = 0 := by
      have hc : (set_sense_ok scsip).config = scsip.config := rfl
      rw [hc, hfull]
      decide
    have he : inquiry env (set_sense_ok scsip) cmd =
        (SCSI_SUCCESS, set_sense_ok scsip,
         [Event.transmit ((set_sense_ok scsip).config.inquiry_response)
            scsi_inquiry_response_size]) := by
      simp only [inquiry, if_neg hv, transmit_data, hsub]
      norm_num
    rw [he]
    exact ⟨rfl, rfl⟩

theorem C8_inquiry_validation_witness :
    ((cmdOnly SCSI_CMD_INQUIRY 1 &&& 3 ≠ 0 ∨ cmdOnly SCSI_CMD_INQUIRY 2 ≠ 0) →
      (scsiExecCmd (mkEnv 512 1000 36) target0 (cmdOnly SCSI_CMD_INQUIRY)).1 = SCSI_FAILED ∧
      (scsiExecCmd (mkEnv 512 1000 36) target0 (cmdOnly SCSI_CMD_INQUIRY)).2.1.sense =
        sense_bytes SCSI_SENSE_KEY_ILLEGAL_REQUEST SCSI_ASENSE_INVALID_FIELD_IN_CDB
          SCSI_ASENSEQ_NO_QUALIFIER) ∧
    (cmdOnly SCSI_CMD_INQUIRY 1 &&& 3 = 0 → cmdOnly SCSI_CMD_INQUIRY 2 = 0 →
      (scsiExecCmd (mkEnv 512 1000 36) target0 (cmdOnly SCSI_CMD_INQUIRY)).1 = SCSI_SUCCESS ∧
      (scsiExecCmd (mkEnv 512 1000 36) target0 (cmdOnly SCSI_CMD_INQUIRY)).2.2 =
        [Event.transmit target0.config.inquiry_response scsi_inquiry_response_size]) :=
  C8_inquiry_validation (mkEnv 512 1000 36) target0 (cmdOnly SCSI_CMD_INQUIRY) rfl rfl

/-- C10: a well-formed report-sense command transmits the canonical success
sense structure regardless of the engine's prior sense state, because the
dispatcher resets the sense to the success condition before routing to the
request-sense handler. -/
theorem C10_report_sense_always_ok (env : Env) (scsip : SCSITarget) (cmd : Nat → Nat)
    (h0 : cmd 0 = SCSI_CMD_REQUEST_SENSE) (h1 : cmd 1 = 0) (h2 : cmd 2 = 0)
    (h3 : cmd 3 = 0) (h4 : cmd 4 = scsi_sense_response_size) :
    (scsiExecCmd env scsip cmd).2.2 =
      [Event.transmit sense_ok_bytes scsi_sense_response_size] := by
  rw [exec_request_sense env scsip cmd h0]
  have hv : ¬ ((cmd 1 ≠ 0 ∨ cmd 2 ≠ 0 ∨ cmd 3 ≠ 0) ∨ cmd 4 ≠ scsi_sense_response_size) := by
    push_neg
    exact ⟨⟨h1, h2, h3⟩, h4⟩
  simp only [request_sense, if_neg hv]
  simp only [transmit_data]
  split_ifs <;> rfl

theorem C10_report_sense_always_ok_witness :
    (scsiExecCmd (mkEnv 512 1000 18)
        (set_sense target0 SCSI_SENSE_KEY_ILLEGAL_REQUEST SCSI_ASENSE_LBA_OUT_OF_RANGE
          SCSI_ASENSEQ_NO_QUALIFIER) cmdReqSense).2.2 =
      [Event.transmit sense_ok_bytes scsi_sense_response_size] :=
  C10_report_sense_always_ok (mkEnv 512 1000 18)
    (set_sense target0 SCSI_SENSE_KEY_ILLEGAL_REQUEST SCSI_ASENSE_LBA_OUT_OF_RANGE
      SCSI_ASENSEQ_NO_QUALIFIER) cmdReqSense rfl rfl rfl rfl rfl

theorem le_bytes32_bytes4 (b0 b1 b2 b3 : Nat) (h0 : b0 < 256) (h1 : b1 < 256)
    (h2 : b2 < 256) (h3 : b3 < 256) :
    le_bytes32 (bytes4 b0 b1 b2 b3) = [b0, b1, b2, b3] := by
  unfold le_bytes32 bytes4
  simp only [List.cons.injEq, and_true]
  refine ⟨by omega, by omega, by omega, by omega⟩

theorem le_bytes32_swap (v : Nat) (hv : v < 4294967296) :
    le_bytes32 (swap_uint32 v) = be_bytes32 v := by
  have hd : v = bytes4 (v % 256) (v / 256 % 256) (v / 65536 % 256) (v / 16777216) := by
    unfold bytes4; omega
  conv_lhs => rw [hd]
  rw [swap_uint32_bytes _ _ _ _ (by omega) (by omega) (by omega) (by omega),
      le_bytes32_bytes4 _ _ _ _ (by omega) (by omega) (by omega) (by omega)]
  unfold be_bytes32
  simp only [List.cons.injEq, and_true]
  omega

/-- C6: a read-capacity dispatch queries the live geometry and transmits the
8-byte capacity response: the last valid block address (block count minus 1)
followed by the block size, both in big-endian wire order. -/
theorem C6_read_capacity_response (env : Env) (scsip : SCSITarget) (cmd : Nat → Nat)
    (h0 : cmd 0 = SCSI_CMD_READ_CAPACITY_10)
    (hbn1 : 1 ≤ env.bdi.blk_num) (hbn : env.bdi.blk_num < 4294967296)
    (hbs : env.bdi.blk_size < 4294967296) :
    (scsiExecCmd env scsip cmd).2.2 =
      [Event.getInfo,
       Event.transmit (be_bytes32 (env.bdi.blk_num - 1) ++ be_bytes32 env.bdi.blk_size)
         scsi_read_capacity10_response_size] := by
  rw [exec_read_capacity env scsip cmd h0]
  have hsubn : sub32 env.bdi.blk_num 1 = env.bdi.blk_num - 1 := by
    unfold sub32; omega
  simp only [read_capacity10, hsubn, le_bytes32_swap _ (by omega : env.bdi.blk_num - 1 < 4294967296),
    le_bytes32_swap _ hbs]
  simp only [transmit_data]
  split_ifs <;> rfl

theorem C6_read_capacity_response_witness :
    (scsiExecCmd (mkEnv 512 1000 8) target0 (cmdOnly SCSI_CMD_READ_CAPACITY_10)).2.2 =
      [Event.getInfo,
       Event.transmit
         (be_bytes32 ((mkEnv 512 1000 8).bdi.blk_num - 1) ++
           be_bytes32 (mkEnv 512 1000 8).bdi.blk_size)
         scsi_read_capacity10_response_size] :=
  C6_read_capacity_response (mkEnv 512 1000 8) target0 (cmdOnly SCSI_CMD_READ_CAPACITY_10)
    rfl (by norm_num [mkEnv]) (by norm_num [mkEnv]) (by norm_num [mkEnv])

/-- C7 counterexample: on the claim's own input (read of 2 blocks at LBA 0,
device with a single block) the dispatch does fail, but a block-device call
does occur before the failure: validation itself queries the device geometry
(blkGetInfo), so the claim that no block-device call occurs is false. -/
theorem C7_counterexample :
    (scsiExecCmd (mkEnv 512 1 0) target0 cmdRead2).1 = SCSI_FAILED ∧
    Event.getInfo ∈ (scsiExecCmd (mkEnv 512 1 0) target0 cmdRead2).2.2 :=
  ⟨rfl, by decide⟩

/-- C7 amended: the read of 2 blocks at LBA 0 on a 1-block device fails
during validation with the LBA-out-of-range sense, and the only external
call before the failure is the geometry query performed by validation: no
block read or write and no transport call occurs. -/
theorem C7_fail_before_io :
    (scsiExecCmd (mkEnv 512 1 0) target0 cmdRead2).1 = SCSI_FAILED ∧
    (scsiExecCmd (mkEnv 512 1 0) target0 cmdRead2).2.1.sense =
      sense_bytes SCSI_SENSE_KEY_ILLEGAL_REQUEST SCSI_ASENSE_LBA_OUT_OF_RANGE
        SCSI_ASENSEQ_NO_QUALIFIER ∧
    (scsiExecCmd (mkEnv 512 1 0) target0 cmdRead2).2.2 = [Event.getInfo] :=
  ⟨rfl, rfl, rfl⟩

theorem rw_loop_count (env : Env) (cmd0 first_lba bs : Nat) (s : SCSITarget) (n : Nat) :
    block_io_count (rw_loop env cmd0 first_lba bs s n).2 = n := by
  induction n with
  | zero => rfl
  | succ k ih =>
      simp only [rw_loop, block_io_count, List.filter_append, List.length_append] at *
      rw [ih]
      by_cases hc : cmd0 = SCSI_CMD_READ_10 <;>
        simp [rw_iter, hc, is_block_io]

theorem data_overflow_events (env : Env) (s : SCSITarget) (req : data_request_t) :
    (data_overflow env s req).2.2 = [Event.getInfo] := by
  unfold data_overflow
  split_ifs <;> rfl

/-- C9: a read or write command that passes range validation always returns
success, and the transfer loop performs exactly block-count per-block device
transfers, for every behavior of the block device and transport (their
results are never consulted). -/
theorem C9_loop_ignores_io_failures (env : Env) (scsip : SCSITarget) (cmd : Nat → Nat)
    (hop : cmd 0 = SCSI_CMD_READ_10 ∨ cmd 0 = SCSI_CMD_WRITE_10)
    (hpass : add32 (decode_data_request cmd).first_lba (decode_data_request cmd).blk_cnt
        ≤ env.bdi.blk_num) :
    (scsiExecCmd env scsip cmd).1 = SCSI_SUCCESS ∧
    block_io_count (scsiExecCmd env scsip cmd).2.2 = (decode_data_request cmd).blk_cnt := by
  have hrw : scsiExecCmd env scsip cmd = data_read_write10 env (set_sense_ok scsip) cmd := by
    rcases hop with h | h
    · exact exec_read10 env scsip cmd h
    · exact exec_write10 env scsip cmd h
  rw [hrw]
  have hov : (data_overflow env (set_sense_ok scsip) (decode_data_request cmd)).1 = false := by
    simp only [data_overflow]
    rw [if_neg (by omega)]
  simp only [data_read_write10, hov, Bool.false_eq_true, if_false]
  refine ⟨by trivial, ?_⟩
  rw [data_overflow_events]
  simp only [block_io_count, List.filter_append, List.length_append]
  have hl := rw_loop_count env (cmd 0) (decode_data_request cmd).first_lba env.bdi.blk_size
    (data_overflow env (set_sense_ok scsip) (decode_data_request cmd)).2.1
    (decode_data_request cmd).blk_cnt
  simp only [block_io_count] at hl
  rw [hl]
  simp [is_block_io]

theorem C9_loop_ignores_io_failures_witness :
    (scsiExecCmd (mkEnv 512 3 0) target0 cmdRead2).1 = SCSI_SUCCESS ∧
    block_io_count (scsiExecCmd (mkEnv 512 3 0) target0 cmdRead2).2.2 =
      (decode_data_request cmdRead2).blk_cnt :=
  C9_loop_ignores_io_failures (mkEnv 512 3 0) target0 cmdRead2 (Or.inl rfl) (by decide)
